import Mathlib

/-!
Shallow embedding of `mesonbuild/compilers/mixins/islinker.py`: the
`LinkerEnvVarsMixin` and `BasicLinkerIsCompilerMixin` classes, together with
the fragment of Python's `shlex.split` (posix mode, whitespace_split) that
`get_linker_args_from_envvars` calls.

Conventions of the embedding:
- a Python method body `return e` becomes `Except.ok e`, and
  `raise E(msg)` becomes `Except.error (PyError.E msg)`, so that raising and
  returning are distinguishable outcomes of every query;
- the attributes of the mixin object that the code actually reads
  (`self.exelist`, `self.id`) form the `Compiler` structure;
- `os.environ` is a partial map `String → Option String`;
- the opaque `OptionDictType` / `Environment` parameters that every default
  ignores are taken as arbitrary types.
-/

namespace IsLinker

/-- Python exceptions raised by the embedded code: `ValueError` (raised by
`shlex.split` on malformed quoting), `mesonlib.EnvironmentException` and
`mesonlib.MesonException`. -/
inductive PyError where
  | valueError (msg : String)
  | environmentException (msg : String)
  | mesonException (msg : String)
  deriving Repr, DecidableEq

/-- The two parse failures of `shlex` in posix mode. -/
inductive ShlexError where
  | noClosingQuotation
  | noEscapedCharacter
  deriving Repr, DecidableEq

/-- The message of the `ValueError` that `shlex` raises. -/
def ShlexError.message : ShlexError → String
  | .noClosingQuotation => "No closing quotation"
  | .noEscapedCharacter => "No escaped character"

/-- `shlex.whitespace = ' \t\r\n'`: the token separators of the splitter. -/
def shlexWhitespace (c : Char) : Bool :=
  c = ' ' || c = '\t' || c = '\r' || c = '\n'

/-- Lexer modes of `shlex.shlex.read_token` with `posix=True`,
`whitespace_split=True`, `commenters=''`: outside quotes, inside single
quotes, inside double quotes, and the two escape states (backslash seen
outside quotes / inside double quotes). -/
inductive SMode where
  | normal
  | single
  | double
  | escNormal
  | escDouble
  deriving Repr, DecidableEq

/-- Lexer state: mode, the token being accumulated, whether a current token
exists (`self.token or (posix and self.quoted)` in `shlex`, so that quoted
empty strings still yield a token), and the tokens emitted so far. -/
structure LexState where
  mode : SMode
  token : String
  hasTok : Bool
  acc : List String
  deriving Repr, DecidableEq

/-- One character step of the `shlex` posix lexer. Outside quotes,
whitespace emits the current token, a quote opens a quoted section (marking
the token present), and a backslash escapes the next character. Inside
single quotes nothing is special but the closing quote. Inside double
quotes a backslash escapes only `"` and `\` and is otherwise kept
literally. -/
def shlexStep (st : LexState) (c : Char) : LexState :=
  match st.mode with
  | .normal =>
    if shlexWhitespace c then
      if st.hasTok then
        { mode := .normal, token := "", hasTok := false, acc := st.acc ++ [st.token] }
      else st
    else if c = '\'' then { st with mode := .single, hasTok := true }
    else if c = '"' then { st with mode := .double, hasTok := true }
    else if c = '\\' then { st with mode := .escNormal }
    else { st with token := st.token.push c, hasTok := true }
  | .single =>
    if c = '\'' then { st with mode := .normal }
    else { st with token := st.token.push c }
  | .double =>
    if c = '"' then { st with mode := .normal }
    else if c = '\\' then { st with mode := .escDouble }
    else { st with token := st.token.push c }
  | .escNormal => { st with mode := .normal, token := st.token.push c, hasTok := true }
  | .escDouble =>
    if c = '"' || c = '\\' then { st with mode := .double, token := st.token.push c }
    else { st with mode := .double, token := (st.token.push '\\').push c }

/-- End of input: an open quote is `ValueError('No closing quotation')`, a
pending escape is `ValueError('No escaped character')`; otherwise the final
token, if present, is emitted. -/
def shlexFinish (st : LexState) : Except ShlexError (List String) :=
  match st.mode with
  | .normal => .ok (if st.hasTok then st.acc ++ [st.token] else st.acc)
  | .single => .error .noClosingQuotation
  | .double => .error .noClosingQuotation
  | .escNormal => .error .noEscapedCharacter
  | .escDouble => .error .noEscapedCharacter

/-- The initial lexer state. -/
def lexInit : LexState := ⟨.normal, "", false, []⟩

/-- `shlex.split(s)` (posix mode, whitespace_split, comments disabled), as
called by `get_linker_args_from_envvars`. -/
def shlexSplit (s : String) : Except ShlexError (List String) :=
  shlexFinish (s.toList.foldl shlexStep lexInit)

/-- A process environment, as read by `os.environ.get`. -/
def Env : Type := String → Option String

/-- `LinkerEnvVarsMixin.get_linker_args_from_envvars`:
`flags = os.environ.get('LDFLAGS'); if not flags: return [];
return shlex.split(flags)`. A Python string is falsy exactly when it is
empty, and an uncaught `ValueError` from `shlex.split` propagates. -/
def get_linker_args_from_envvars (env : Env) : Except PyError (List String) :=
  match env "LDFLAGS" with
  | none => .ok []
  | some flags =>
    if flags = "" then .ok []
    else
      match shlexSplit flags with
      | .ok toks => .ok toks
      | .error e => .error (.valueError e.message)

/-- The attributes of a `BasicLinkerIsCompilerMixin` object that its methods
read: the compiler invocation list and the toolchain identifier. -/
structure Compiler where
  exelist : List String
  id : String
  deriving Repr, DecidableEq

/-- Host platforms distinguished by the code. -/
inductive Platform where
  | windows
  | linux
  | darwin
  | other
  deriving Repr, DecidableEq

/-- Modelled from the spec: `mesonlib.is_windows` is not under src (only its
caller `can_linker_accept_rsp` is); per the spec, response-file acceptance
"defaults to true only when the host platform is the one known to support
linker response files" (Windows), so `is_windows` holds exactly on the
Windows host platform. -/
def is_windows (p : Platform) : Bool :=
  match p with
  | .windows => true
  | _ => false

/-- `mesonlib.MachineChoice`: build machine or host machine. -/
inductive MachineChoice where
  | build
  | host
  deriving Repr, DecidableEq

def sanitizer_link_args (_self : Compiler) (_value : String) :
    Except PyError (List String) :=
  .ok []

def get_lto_link_args (_self : Compiler) : Except PyError (List String) :=
  .ok []

/-- `return mesonlib.is_windows()`; the host platform is the only input the
answer depends on. -/
def can_linker_accept_rsp (_self : Compiler) (p : Platform) :
    Except PyError Bool :=
  .ok (is_windows p)

/-- `return self.exelist.copy()`; at the level of list values the copy is
equal to the stored list (reference freshness is modelled separately on
`PyHeap`). -/
def get_linker_exelist (self : Compiler) : Except PyError (List String) :=
  .ok self.exelist

def get_linker_output_args (_self : Compiler) (_output : String) :
    Except PyError (List String) :=
  .ok []

def get_linker_always_args (_self : Compiler) : Except PyError (List String) :=
  .ok []

def get_linker_lib_prefix (_self : Compiler) : Except PyError String :=
  .ok ""

def get_option_link_args {α : Type} (_self : Compiler) (_options : α) :
    Except PyError (List String) :=
  .ok []

def has_multi_link_args {α : Type} (_self : Compiler) (_args : List String)
    (_env : α) : Except PyError (Bool × Bool) :=
  .ok (false, false)

def get_link_debugfile_args (_self : Compiler) (_targetfile : String) :
    Except PyError (List String) :=
  .ok []

def get_std_shared_lib_link_args (_self : Compiler) :
    Except PyError (List String) :=
  .ok []

/-- `return self.get_std_shared_lib_link_args()`: the options argument is
not consulted. -/
def get_std_shared_module_args {α : Type} (self : Compiler) (_options : α) :
    Except PyError (List String) :=
  get_std_shared_lib_link_args self

def get_link_whole_for (self : Compiler) (_args : List String) :
    Except PyError (List String) :=
  .error (.environmentException
    ("Linker " ++ self.id ++ " does not support link_whole"))

def get_allow_undefined_args (self : Compiler) : Except PyError (List String) :=
  .error (.environmentException
    ("Linker " ++ self.id ++ " does not support allow undefined"))

def get_pie_link_args (self : Compiler) : Except PyError (List String) :=
  .error (.environmentException
    ("Linker " ++ self.id ++ " does not support position-independent executable"))

def get_undefined_link_args (_self : Compiler) : Except PyError (List String) :=
  .ok []

/-- The ASCII apostrophe (code point 39), used in three of the source
exception messages. -/
def apos : String := String.singleton (Char.ofNat 39)

def get_coverage_link_args (self : Compiler) : Except PyError (List String) :=
  .error (.environmentException
    ("Linker " ++ self.id ++ (" doesn" ++ apos ++ "t implement coverage data generation.")))

def no_undefined_link_args (_self : Compiler) : Except PyError (List String) :=
  .ok []

def bitcode_args (_self : Compiler) : Except PyError (List String) :=
  .error (.mesonException ("This linker doesn" ++ apos ++ "t support bitcode bundles"))

def get_soname_args (_self : Compiler) (_for_machine : MachineChoice)
    (_pfx _shlib_name _suffix _soversion : String)
    (_darwin_versions : String × String) (_is_shared_module : Bool) :
    Except PyError (List String) :=
  .error (.mesonException ("This linker doesn" ++ apos ++ "t support soname args"))

def build_rpath_args {α : Type} (_self : Compiler) (_env : α)
    (_build_dir _from_dir _rpath_paths _build_rpath _install_rpath : String) :
    Except PyError (List String) :=
  .ok []

/-- Python list objects, for modelling the reference semantics of
`self.exelist.copy()`: a heap of list cells addressed by index. -/
structure PyHeap where
  cells : List (List String)
  deriving Repr, DecidableEq

/-- Read the list object behind a reference. -/
def PyHeap.get (h : PyHeap) (r : Nat) : List String :=
  h.cells.getD r []

/-- Allocate a fresh list object, returning the new heap and the fresh
reference. -/
def PyHeap.alloc (h : PyHeap) (v : List String) : PyHeap × Nat :=
  (⟨h.cells ++ [v]⟩, h.cells.length)

/-- Mutate in place the list object behind a reference. -/
def PyHeap.mutate (h : PyHeap) (r : Nat) (v : List String) : PyHeap :=
  ⟨h.cells.set r v⟩

/-- A mixin object whose `exelist` attribute is, as in Python, a reference
to a heap-allocated list. -/
structure CompilerRef where
  exelist : Nat
  id : String
  deriving Repr, DecidableEq

/-- `get_linker_exelist` at the reference level: `self.exelist.copy()`
allocates a fresh list object holding the same elements as the stored
one. -/
def get_linker_exelist_ref (h : PyHeap) (self : CompilerRef) : PyHeap × Nat :=
  h.alloc (h.get self.exelist)

example : shlexSplit "-L/opt/lib \"-Wl,-rpath,/opt/lib\"" =
    .ok ["-L/opt/lib", "-Wl,-rpath,/opt/lib"] := rfl

example : shlexSplit "a\\ b" = .ok ["a b"] := rfl

example : shlexSplit "\"ab" = .error .noClosingQuotation := rfl

example : shlexSplit "" = .ok [] := rfl

/-- Appending strings concatenates their character lists. -/
theorem toList_append (a b : String) : (a ++ b).toList = a.toList ++ b.toList :=
  String.data_append a b

/-- The middle factor of a three-part concatenation occurs in the result. -/
theorem substr_mid (a b c : String) : b.toList <:+: (a ++ b ++ c).toList := by
  rw [toList_append, toList_append]
  exact List.infix_append _ _ _

/-- The right factor of a concatenation occurs in the result. -/
theorem substr_right (a b : String) : b.toList <:+: (a ++ b).toList := by
  rw [toList_append]
  exact (List.suffix_append _ _).isInfix

/-- A hard-failure query result `r` raises an unsupported-feature error
carrying the toolchain identity `tid` and a statement naming `feature`:
the result is an exception of one of the two meson exception classes whose
message contains both as substrings. -/
def UnsupportedRaise (r : Except PyError (List String))
    (tid feature : String) : Prop :=
  ∃ m, (r = .error (.environmentException m) ∨ r = .error (.mesonException m))
    ∧ tid.toList <:+: m.toList ∧ feature.toList <:+: m.toList

/-- C1 fails as stated: on the baseline table with toolchain id `zz9`, the
bitcode query raises an exception whose message is a fixed string that does
not contain the toolchain identity, so not every hard-failure query carries
the toolchain identity in its payload. -/
theorem hard_failure_identity_counterexample :
    ¬ UnsupportedRaise (bitcode_args ⟨["dmd"], "zz9"⟩) "zz9" "bitcode" := by
  rintro ⟨m, hm | hm, hid, -⟩
  · simp [bitcode_args] at hm
  · have hmsg : ("This linker doesn" ++ apos ++ "t support bitcode bundles") = m := by
      simpa [bitcode_args] using hm
    rw [← hmsg] at hid
    revert hid
    decide

/-- C1 (amended): the four hard-failure queries for whole-archive linking,
allow-undefined, PIE and coverage raise an error whose message carries both
the toolchain identity and a statement naming the feature, for all argument
values; the bitcode and soname queries raise an error whose message names
the feature but is a fixed string independent of the toolchain identity. -/
theorem hard_failure_defaults (c c' : Compiler) (args : List String)
    (machine : MachineChoice) (pfx shlib_name sfx soversion : String)
    (darwin_versions : String × String) (is_shared_module : Bool) :
    UnsupportedRaise (get_link_whole_for c args) c.id "link_whole"
    ∧ UnsupportedRaise (get_allow_undefined_args c) c.id "allow undefined"
    ∧ UnsupportedRaise (get_pie_link_args c) c.id "position-independent executable"
    ∧ UnsupportedRaise (get_coverage_link_args c) c.id "coverage"
    ∧ (∃ m, bitcode_args c = .error (.mesonException m)
        ∧ "bitcode".toList <:+: m.toList)
    ∧ bitcode_args c = bitcode_args c'
    ∧ (∃ m, get_soname_args c machine pfx shlib_name sfx soversion
          darwin_versions is_shared_module = .error (.mesonException m)
        ∧ "soname".toList <:+: m.toList)
    ∧ get_soname_args c machine pfx shlib_name sfx soversion
        darwin_versions is_shared_module
      = get_soname_args c' machine pfx shlib_name sfx soversion
        darwin_versions is_shared_module := by
  refine ⟨⟨_, Or.inl rfl, substr_mid _ _ _, ?_⟩,
    ⟨_, Or.inl rfl, substr_mid _ _ _, ?_⟩,
    ⟨_, Or.inl rfl, substr_mid _ _ _, ?_⟩,
    ⟨_, Or.inl rfl, substr_mid _ _ _, ?_⟩,
    ⟨_, rfl, by decide⟩, rfl, ⟨_, rfl, by decide⟩, rfl⟩
  · exact List.IsInfix.trans (by decide) (substr_right ("Linker " ++ c.id) _)
  · exact List.IsInfix.trans (by decide) (substr_right ("Linker " ++ c.id) _)
  · exact List.IsInfix.trans (by decide) (substr_right ("Linker " ++ c.id) _)
  · exact List.IsInfix.trans (by decide) (substr_right ("Linker " ++ c.id) _)

/-- C2: every inert-default query on the unmodified baseline table returns
an empty argument list (an `.ok`, so it never raises), for arbitrary valid
inputs. -/
theorem inert_defaults_empty {α β γ : Type} (c : Compiler)
    (value output targetfile : String) (options : α) (moptions : β) (envd : γ)
    (build_dir from_dir rpath_paths build_rpath install_rpath : String) :
    sanitizer_link_args c value = .ok []
    ∧ get_lto_link_args c = .ok []
    ∧ get_linker_output_args c output = .ok []
    ∧ get_linker_always_args c = .ok []
    ∧ get_option_link_args c options = .ok []
    ∧ get_link_debugfile_args c targetfile = .ok []
    ∧ get_std_shared_lib_link_args c = .ok []
    ∧ get_std_shared_module_args c moptions = .ok []
    ∧ get_undefined_link_args c = .ok []
    ∧ no_undefined_link_args c = .ok []
    ∧ build_rpath_args c envd build_dir from_dir rpath_paths build_rpath
        install_rpath = .ok [] :=
  ⟨rfl, rfl, rfl, rfl, rfl, rfl, rfl, rfl, rfl, rfl, rfl⟩

/-- C4: response-file acceptance is true exactly when the host platform is
Windows, and does not depend on the toolchain identity (the `is_windows`
probe is modelled from the spec, `mesonlib` not being under src). -/
theorem can_linker_accept_rsp_iff_windows (c c' : Compiler) (p : Platform) :
    (can_linker_accept_rsp c p = .ok true ↔ p = Platform.windows)
    ∧ can_linker_accept_rsp c p = can_linker_accept_rsp c' p := by
  refine ⟨?_, rfl⟩
  cases p <;> simp [can_linker_accept_rsp, is_windows]

/-- C5: the multi-argument acceptance probe on the baseline table returns
exactly `(false, false)` (an `.ok`, so it never raises) for every candidate
argument list and every environment/target descriptor. -/
theorem has_multi_link_args_false_false {α : Type} (c : Compiler)
    (args : List String) (envd : α) :
    has_multi_link_args c args envd = .ok (false, false) :=
  rfl

/-- C10: the baseline shared-module query returns exactly the result of the
shared-library query for every option dictionary; in particular the options
argument is ignored. -/
theorem shared_module_defaults_to_shared_lib {α β : Type} (c : Compiler)
    (options : α) (moptions : β) :
    get_std_shared_module_args c options = get_std_shared_lib_link_args c
    ∧ get_std_shared_module_args c options = get_std_shared_module_args c moptions :=
  ⟨rfl, rfl⟩

/-- C8: `get_linker_exelist` returns a list equal element-for-element to the
stored `exelist`, held behind a fresh reference, so mutating the returned
list leaves the object's stored `exelist` unchanged. -/
theorem get_linker_exelist_fresh_copy (h : PyHeap) (self : CompilerRef)
    (hv : self.exelist < h.cells.length) (v : List String) :
    (get_linker_exelist_ref h self).1.get (get_linker_exelist_ref h self).2
        = h.get self.exelist
    ∧ (get_linker_exelist_ref h self).2 ≠ self.exelist
    ∧ ((get_linker_exelist_ref h self).1.mutate
        (get_linker_exelist_ref h self).2 v).get self.exelist
      = h.get self.exelist := by
  refine ⟨?_, (Nat.ne_of_lt hv).symm, ?_⟩
  · show (h.cells ++ [h.get self.exelist]).getD h.cells.length [] = h.get self.exelist
    simp [List.getElem?_concat_length]
  · show ((h.cells ++ [h.get self.exelist]).set h.cells.length v).getD
        self.exelist [] = h.cells.getD self.exelist []
    rw [List.getD_eq_getElem?_getD, List.getD_eq_getElem?_getD,
      List.getElem?_set_ne (Nat.ne_of_lt hv).symm,
      List.getElem?_append_left hv]

/-- Witness for C8 at a concrete heap: one stored cell `["cc", "-v"]`, a
compiler whose `exelist` reference is cell 0, and an overwrite of the
returned copy with `["x"]`. -/
theorem get_linker_exelist_fresh_copy_witness :
    (get_linker_exelist_ref ⟨[["cc", "-v"]]⟩ ⟨0, "cc"⟩).1.get
        (get_linker_exelist_ref ⟨[["cc", "-v"]]⟩ ⟨0, "cc"⟩).2
      = PyHeap.get ⟨[["cc", "-v"]]⟩ 0
    ∧ (get_linker_exelist_ref ⟨[["cc", "-v"]]⟩ ⟨0, "cc"⟩).2 ≠ 0
    ∧ ((get_linker_exelist_ref ⟨[["cc", "-v"]]⟩ ⟨0, "cc"⟩).1.mutate
        (get_linker_exelist_ref ⟨[["cc", "-v"]]⟩ ⟨0, "cc"⟩).2 ["x"]).get 0
      = PyHeap.get ⟨[["cc", "-v"]]⟩ 0 :=
  get_linker_exelist_fresh_copy ⟨[["cc", "-v"]]⟩ ⟨0, "cc"⟩ (by decide) ["x"]

/-- C6: with LDFLAGS set to `-L/opt/lib "-Wl,-rpath,/opt/lib"`, the
environment-flags query returns exactly the two tokens `-L/opt/lib` and
`-Wl,-rpath,/opt/lib`: quotes are removed and the quoted token is not split
at its internal spaces. -/
theorem env_flags_quoted_example :
    get_linker_args_from_envvars
        (fun v => if v = "LDFLAGS" then
          some "-L/opt/lib \"-Wl,-rpath,/opt/lib\"" else none)
      = .ok ["-L/opt/lib", "-Wl,-rpath,/opt/lib"] :=
  rfl

/-- Running the lexer over separator-only input leaves the initial state
unchanged. -/
theorem foldl_shlexStep_whitespace (l : List Char)
    (hw : ∀ c ∈ l, shlexWhitespace c = true) :
    l.foldl shlexStep lexInit = lexInit := by
  induction l with
  | nil => rfl
  | cons c cs ih =>
    have hc := hw c (List.mem_cons_self ..)
    have hstep : shlexStep lexInit c = lexInit := by
      simp [shlexStep, lexInit, hc]
    rw [List.foldl_cons, hstep]
    exact ih fun d hd => hw d (List.mem_cons_of_mem _ hd)

/-- C7: if LDFLAGS is unset, or set to the empty string, or set to a string
of separators only (the shlex whitespace set: space, tab, CR, LF), the
environment-flags query returns the empty list and never raises. -/
theorem empty_env_flags (env : Env)
    (h : env "LDFLAGS" = none ∨ ∃ s, env "LDFLAGS" = some s
        ∧ ∀ c ∈ s.toList, shlexWhitespace c = true) :
    get_linker_args_from_envvars env = .ok [] := by
  rcases h with h | ⟨s, hs, hw⟩
  · simp [get_linker_args_from_envvars, h]
  · have hsplit : shlexSplit s = .ok [] := by
      unfold shlexSplit
      rw [foldl_shlexStep_whitespace s.toList hw]
      rfl
    by_cases hse : s = ""
    · simp [get_linker_args_from_envvars, hs, hse]
    · simp [get_linker_args_from_envvars, hs, hse, hsplit]

/-- Witness for C7: an environment whose LDFLAGS is the blank string
consisting of a space, a tab and a space. -/
theorem empty_env_flags_witness :
    get_linker_args_from_envvars
        (fun v => if v = "LDFLAGS" then some " \t " else none) = .ok [] :=
  empty_env_flags (fun v => if v = "LDFLAGS" then some " \t " else none)
    (Or.inr (Exists.intro " \t " (And.intro rfl (by decide))))

/-- C3: when LDFLAGS is set to a string on which shlex word-splitting
fails, the query surfaces that parse failure as the `ValueError` carrying
the shlex message — an error distinct from both meson exception classes
used for toolchain-capability failures — rather than returning a truncated
token list. -/
theorem malformed_env_flags_error (env : Env) (s : String) (e : ShlexError)
    (hset : env "LDFLAGS" = some s) (hmal : shlexSplit s = .error e) :
    get_linker_args_from_envvars env = .error (.valueError e.message)
    ∧ (∀ msg, PyError.valueError e.message ≠ .environmentException msg
        ∧ PyError.valueError e.message ≠ .mesonException msg) := by
  have hse : s ≠ "" := by
    intro hcontra
    rw [hcontra] at hmal
    exact Except.noConfusion hmal
  refine ⟨?_, fun msg =>
    ⟨fun hc => PyError.noConfusion hc, fun hc => PyError.noConfusion hc⟩⟩
  simp [get_linker_args_from_envvars, hset, hse, hmal]

/-- Witness for C3: LDFLAGS holding an unclosed double quote produces the
`No closing quotation` `ValueError`, which differs from an
`EnvironmentException`. -/
theorem malformed_env_flags_error_witness :
    get_linker_args_from_envvars
        (fun v => if v = "LDFLAGS" then some "-L/opt \"unclosed" else none)
      = .error (.valueError "No closing quotation")
    ∧ PyError.valueError "No closing quotation" ≠ .environmentException "x" :=
  ⟨(malformed_env_flags_error
      (fun v => if v = "LDFLAGS" then some "-L/opt \"unclosed" else none)
      "-L/opt \"unclosed" .noClosingQuotation rfl rfl).1,
   ((malformed_env_flags_error
      (fun v => if v = "LDFLAGS" then some "-L/opt \"unclosed" else none)
      "-L/opt \"unclosed" .noClosingQuotation rfl rfl).2 "x").1⟩

/-- One query of the baseline capability table together with its inputs.
The opaque option-dictionary and environment-descriptor inputs, which every
default ignores, are instantiated at concrete types here. -/
inductive Query where
  | sanitizer (value : String)
  | lto
  | rsp
  | exelist
  | output (o : String)
  | always
  | libPfx
  | optionArgs (options : List (String × String))
  | multi (args : List String)
  | debugfile (targetfile : String)
  | sharedLib
  | sharedModule (options : List (String × String))
  | linkWhole (args : List String)
  | allowUndefined
  | pie
  | undefined
  | coverage
  | noUndefined
  | bitcode
  | soname (machine : MachineChoice) (pfx shlib_name sfx soversion : String)
      (darwin_versions : String × String) (is_shared_module : Bool)
  | rpath (build_dir from_dir rpath_paths build_rpath install_rpath : String)
  | envFlags
  deriving Repr, DecidableEq

/-- The result of one query, over the four return types that occur. -/
inductive QueryResult where
  | strs (r : Except PyError (List String))
  | strOne (r : Except PyError String)
  | flag (r : Except PyError Bool)
  | flagPair (r : Except PyError (Bool × Bool))
  deriving Repr

/-- Dispatch one query on a capability object, threading the object and the
process environment through explicitly; each method of the source reads but
never writes them, so the translation returns both alongside the result. -/
def runQuery (c : Compiler) (env : Env) (p : Platform) :
    Query → QueryResult × Compiler × Env
  | .sanitizer v => (.strs (sanitizer_link_args c v), c, env)
  | .lto => (.strs (get_lto_link_args c), c, env)
  | .rsp => (.flag (can_linker_accept_rsp c p), c, env)
  | .exelist => (.strs (get_linker_exelist c), c, env)
  | .output o => (.strs (get_linker_output_args c o), c, env)
  | .always => (.strs (get_linker_always_args c), c, env)
  | .libPfx => (.strOne ( get_linker_lib_prefix c), c, env)
  | .optionArgs options => (.strs (get_option_link_args c options), c, env)
  | .multi args => (.flagPair (has_multi_link_args c args ()), c, env)
  | .debugfile t => (.strs (get_link_debugfile_args c t), c, env)
  | .sharedLib => (.strs (get_std_shared_lib_link_args c), c, env)
  | .sharedModule options => (.strs (get_std_shared_module_args c options), c, env)
  | .linkWhole args => (.strs (get_link_whole_for c args), c, env)
  | .allowUndefined => (.strs (get_allow_undefined_args c), c, env)
  | .pie => (.strs (get_pie_link_args c), c, env)
  | .undefined => (.strs (get_undefined_link_args c), c, env)
  | .coverage => (.strs (get_coverage_link_args c), c, env)
  | .noUndefined => (.strs (no_undefined_link_args c), c, env)
  | .bitcode => (.strs (bitcode_args c), c, env)
  | .soname m pfx sn sfx sv dv ism =>
      (.strs (get_soname_args c m pfx sn sfx sv dv ism), c, env)
  | .rpath bd fd rp br ir =>
      (.strs (build_rpath_args c () bd fd rp br ir), c, env)
  | .envFlags => (.strs (get_linker_args_from_envvars env), c, env)

/-- C9: every query of the baseline table is deterministic and mutation
free: dispatching the same query a second time, starting from the object
and environment left by the first dispatch, yields the same result, and
the capability object and the environment are exactly as they started. -/
theorem queries_idempotent (c : Compiler) (env : Env) (p : Platform)
    (q : Query) :
    (runQuery (runQuery c env p q).2.1 (runQuery c env p q).2.2 p q).1
        = (runQuery c env p q).1
    ∧ (runQuery c env p q).2.1 = c
    ∧ (runQuery c env p q).2.2 = env := by
  cases q <;> exact ⟨rfl, rfl, rfl⟩

end IsLinker
